import Mathlib

/-!
Shallow embedding of the rust-sfml binding layer (sampled files:
`src/graphics/shader/rc.rs`, `src/window/video_mode.rs`,
`src/graphics/blend_mode.rs`, `src/network/socket_status.rs`) together with
theorems settling the specification claims about it.

The binding is pure glue over a native C library.  We model the native layer
as a structure of response functions (`Native`) and each binding operation as
a pure Lean function of that structure; operations additionally return the
foreign call they emit (`NativeCall`), so that claims about *which* native
entry point is invoked with *which* marshaled arguments are statable.

Machine integers: the Rust `uint` (pointer-sized, 64-bit platform assumed, as
the spec fixes field widths at the ABI) is modelled as `Nat`; casts to the
32-bit `c_uint` are modelled as `% 2^32`, the only place truncation can occur.
-/

namespace RustSfml

/-- A native pointer-sized handle value.  The native factory returns either a
null pointer (modelled as `Option.none` at the return site) or a valid handle. -/
abbrev Handle := Nat

/-- Modelled from the spec: `ffi::sfml_types` is not among the sampled files.
§6 of the design document: boolean results from the native layer are two
specific sentinel values (`SFTRUE` / `SFFALSE`), not an arbitrary non-zero
convention. -/
inductive SfBool where
  | SFFALSE
  | SFTRUE
deriving DecidableEq, Repr

/-- A 32-bit float value kept as an opaque bit pattern: the binding layer
performs no arithmetic on floats, it only passes them through to the native
call, so no floating-point semantics is needed. -/
structure F32 where
  bits : Nat
deriving DecidableEq, Repr

/-- Modelled from the spec: `system::vector2::Vector2f` is not among the
sampled files; a plain value struct of two 32-bit floats, passed through by
value. -/
structure Vector2f where
  x : F32
  y : F32
deriving DecidableEq, Repr

/-- Modelled from the spec: `system::vector3::Vector3f` is not among the
sampled files; a plain value struct of three 32-bit floats, passed through by
value. -/
structure Vector3f where
  x : F32
  y : F32
  z : F32
deriving DecidableEq, Repr

/-- Modelled from the spec: `graphics::Color` is not among the sampled files;
four integer components in [0, 255], passed through by value (normalization
to [0,1] happens on the native side only). -/
structure Color where
  red : Nat
  green : Nat
  blue : Nat
  alpha : Nat
deriving DecidableEq, Repr

/-- Modelled from the spec: `graphics::Texture` is not among the sampled
files; a wrapper object owning one native texture handle, retrievable via
`unwrap` (used by `sfShader_setTextureParameter`). -/
structure Texture where
  texture : Handle
deriving DecidableEq, Repr

/-- The native display-mode triplet `ffi::sfVideoMode`: three unsigned 32-bit
fields (width, height, bits per pixel).  A genuine native value has every
field below `2^32`. -/
structure sfVideoMode where
  width : Nat
  height : Nat
  bits_per_pixel : Nat
deriving DecidableEq, Repr

/-- One call across the foreign-function boundary, as the binding layer emits
it: the entry point together with its marshaled arguments.  A null text
pointer is `none`; a pointer to NUL-terminated text `s` is `some s`. -/
inductive NativeCall where
  | sfShader_createFromFile (vertex fragment : Option String)
  | sfShader_createFromMemory (vertex fragment : Option String)
  | sfShader_setFloatParameter (shader : Handle) (name : String) (x : F32)
  | sfShader_setFloat2Parameter (shader : Handle) (name : String) (x y : F32)
  | sfShader_setFloat3Parameter (shader : Handle) (name : String) (x y z : F32)
  | sfShader_setFloat4Parameter (shader : Handle) (name : String) (x y z w : F32)
  | sfShader_setTextureParameter (shader : Handle) (name : String) (texture : Handle)
  | sfShader_setCurrentTextureParameter (shader : Handle) (name : String)
  | sfShader_setVector2Parameter (shader : Handle) (name : String) (vector : Vector2f)
  | sfShader_setVector3Parameter (shader : Handle) (name : String) (vector : Vector3f)
  | sfShader_setColorParameter (shader : Handle) (name : String) (color : Color)
  | sfShader_bind (shader : Handle)
  | sfShader_isAvailable
deriving DecidableEq, Repr

/-- The native layer's observable responses: what each foreign entry point
returns for given marshaled arguments.  The binding layer is parametric in
this structure; theorems quantify over it.  `sfShader_createFromFile` and
`sfShader_createFromMemory` return `none` for a null handle and `some h` for
a valid one.  `sfVideoMode_getFullscreenModes` is the pair of an entry count
(written through the out-parameter) and the array it returns, read here as a
function from index to entry. -/
structure Native where
  sfShader_createFromFile : Option String → Option String → Option Handle
  sfShader_createFromMemory : Option String → Option String → Option Handle
  sfShader_isAvailable : SfBool
  fullscreenModesCount : Nat
  fullscreenModesTab : Nat → sfVideoMode
  sfVideoMode_getDesktopMode : sfVideoMode
  sfVideoMode_isValid : sfVideoMode → SfBool

/-- Marshaling of one optional textual input at the native boundary
(src/graphics/shader/rc.rs, lines 76-85 and 117-126): `None` becomes a null
pointer, `Some s` becomes a pointer to the NUL-terminated text of `s`
(`CString::from_slice(s.as_bytes()).as_ptr()`). -/
def marshalOptStr (s : Option String) : Option String :=
  if s.isNone then none else some s.get!

/-- The shader wrapper (src/graphics/shader/rc.rs, lines 49-54): one owned
native handle plus an optional retained shared reference to a texture
(`Option<Rc<RefCell<Texture>>>`). -/
structure Shader where
  shader : Handle
  texture : Option Texture
deriving DecidableEq, Repr

/-- `Shader::new_from_file` (src/graphics/shader/rc.rs, lines 72-97): marshal
the two optional filename inputs, call `sfShader_createFromFile`, and return
`None` when the native handle is null, else the populated wrapper.  The
second component is the list of native calls emitted. -/
def Shader.new_from_file (native : Native)
    (vertex_shader_filename fragment_shader_filename : Option String) :
    Option Shader × List NativeCall :=
  let c_vertex_shader_filename := marshalOptStr vertex_shader_filename
  let c_fragment_shader_filename := marshalOptStr fragment_shader_filename
  let shader := native.sfShader_createFromFile c_vertex_shader_filename
      c_fragment_shader_filename
  let calls := [NativeCall.sfShader_createFromFile c_vertex_shader_filename
      c_fragment_shader_filename]
  match shader with
  | none => (none, calls)
  | some h => (some { shader := h, texture := none }, calls)

/-- `Shader::new_from_memory` (src/graphics/shader/rc.rs, lines 114-137):
marshal the two optional source inputs and — exactly as the source does —
call `sfShader_createFromFile`, not a from-memory entry point; return `None`
when the native handle is null, else the populated wrapper. -/
def Shader.new_from_memory (native : Native)
    (vertex_shader fragment_shader : Option String) :
    Option Shader × List NativeCall :=
  let c_vertex_shader := marshalOptStr vertex_shader
  let c_fragment_shader := marshalOptStr fragment_shader
  let shader := native.sfShader_createFromFile c_vertex_shader c_fragment_shader
  let calls := [NativeCall.sfShader_createFromFile c_vertex_shader
      c_fragment_shader]
  match shader with
  | none => (none, calls)
  | some h => (some { shader := h, texture := none }, calls)

/-- `Shader::set_float_parameter` (lines 144-149): forwards to the native
layer; no wrapper state changes. -/
def Shader.set_float_parameter (self : Shader) (name : String) (x : F32) :
    Shader × NativeCall :=
  (self, NativeCall.sfShader_setFloatParameter self.shader name x)

/-- `Shader::set_float_2_parameter` (lines 161-169). -/
def Shader.set_float_2_parameter (self : Shader) (name : String) (x y : F32) :
    Shader × NativeCall :=
  (self, NativeCall.sfShader_setFloat2Parameter self.shader name x y)

/-- `Shader::set_float_3_parameter` (lines 182-195). -/
def Shader.set_float_3_parameter (self : Shader) (name : String) (x y z : F32) :
    Shader × NativeCall :=
  (self, NativeCall.sfShader_setFloat3Parameter self.shader name x y z)

/-- `Shader::set_float_4_parameter` (lines 209-224). -/
def Shader.set_float_4_parameter (self : Shader) (name : String)
    (x y z w : F32) : Shader × NativeCall :=
  (self, NativeCall.sfShader_setFloat4Parameter self.shader name x y z w)

/-- `Shader::set_texture_parameter` (lines 235-245): forwards the texture's
underlying handle (`(*texture).borrow().unwrap()`) to the native layer, then
stores the shared reference in the wrapper (`self.texture = Some(texture)`). -/
def Shader.set_texture_parameter (self : Shader) (name : String)
    (texture : Texture) : Shader × NativeCall :=
  ({ self with texture := some texture },
   NativeCall.sfShader_setTextureParameter self.shader name texture.texture)

/-- `Shader::set_current_texture_parameter` (lines 257-262): takes `&self`
(no mutation is even possible) and forwards only the name; no reference is
retained. -/
def Shader.set_current_texture_parameter (self : Shader) (name : String) :
    Shader × NativeCall :=
  (self, NativeCall.sfShader_setCurrentTextureParameter self.shader name)

/-- `Shader::set_vector2_parameter` (lines 298-307). -/
def Shader.set_vector2_parameter (self : Shader) (name : String)
    (vector : Vector2f) : Shader × NativeCall :=
  (self, NativeCall.sfShader_setVector2Parameter self.shader name vector)

/-- `Shader::set_vector3_parameter` (lines 318-327). -/
def Shader.set_vector3_parameter (self : Shader) (name : String)
    (vector : Vector3f) : Shader × NativeCall :=
  (self, NativeCall.sfShader_setVector3Parameter self.shader name vector)

/-- `Shader::set_color_parameter` (lines 344-349). -/
def Shader.set_color_parameter (self : Shader) (name : String) (color : Color) :
    Shader × NativeCall :=
  (self, NativeCall.sfShader_setColorParameter self.shader name color)

/-- `Shader::bind` (lines 269-273). -/
def Shader.bind (self : Shader) : Shader × NativeCall :=
  (self, NativeCall.sfShader_bind self.shader)

/-- `Shader::is_available` (lines 282-287): decodes the native sentinel
boolean; a static query taking no shader instance. -/
def Shader.is_available (native : Native) : Bool :=
  match native.sfShader_isAvailable with
  | SfBool.SFFALSE => false
  | SfBool.SFTRUE => true

/-- `Wrappable<*mut sfShader>::wrap` for `Shader` (lines 353-358): take
ownership of a pre-existing handle; the retained-texture field starts empty. -/
def Shader.wrap (shader : Handle) : Shader :=
  { shader := shader, texture := none }

/-- `Wrappable<*mut sfShader>::unwrap` for `Shader` (lines 360-362): borrow
the raw handle. -/
def Shader.unwrap (self : Shader) : Handle :=
  self.shader

/-- One method invocation on a shader wrapper, for reasoning about reachable
wrapper states: each constructor names a method of `impl Shader` and carries
its arguments. -/
inductive ShaderOp where
  | set_float (name : String) (x : F32)
  | set_float_2 (name : String) (x y : F32)
  | set_float_3 (name : String) (x y z : F32)
  | set_float_4 (name : String) (x y z w : F32)
  | set_texture (name : String) (texture : Texture)
  | set_current_texture (name : String)
  | set_vector2 (name : String) (vector : Vector2f)
  | set_vector3 (name : String) (vector : Vector3f)
  | set_color (name : String) (color : Color)
  | bind
deriving DecidableEq, Repr

/-- Dispatch one method invocation to the corresponding embedded method. -/
def Shader.step (self : Shader) : ShaderOp → Shader × NativeCall
  | ShaderOp.set_float name x => self.set_float_parameter name x
  | ShaderOp.set_float_2 name x y => self.set_float_2_parameter name x y
  | ShaderOp.set_float_3 name x y z => self.set_float_3_parameter name x y z
  | ShaderOp.set_float_4 name x y z w => self.set_float_4_parameter name x y z w
  | ShaderOp.set_texture name texture => self.set_texture_parameter name texture
  | ShaderOp.set_current_texture name => self.set_current_texture_parameter name
  | ShaderOp.set_vector2 name vector => self.set_vector2_parameter name vector
  | ShaderOp.set_vector3 name vector => self.set_vector3_parameter name vector
  | ShaderOp.set_color name color => self.set_color_parameter name color
  | ShaderOp.bind => self.bind

/-- Run a sequence of method invocations, threading the wrapper state. -/
def Shader.runOps (self : Shader) : List ShaderOp → Shader
  | [] => self
  | op :: ops => Shader.runOps (self.step op).1 ops

/-- Specification-side effect of one method invocation on the retained
texture: a `set_texture` call installs its argument, every other call leaves
the accumulator unchanged. -/
def retainedTextureStep (acc : Option Texture) (op : ShaderOp) : Option Texture :=
  match op with
  | ShaderOp.set_texture _ t => some t
  | _ => acc

/-- Specification-side description of the retained texture after a sequence
of method invocations: the argument of the last `set_texture` call, or the
initial contents when there is none ("Some(t) only if set_texture_parameter
was called with t and no later call replaced it"). -/
def retainedTextureSpec (init : Option Texture) (ops : List ShaderOp) :
    Option Texture :=
  ops.foldl retainedTextureStep init

/-- Strong-reference count of the `Rc<RefCell<Texture>>` cell holding `t`:
references held outside the shader plus the shader's own retained reference.
Rust's `Rc` deallocates the cell exactly when this count reaches zero, so the
texture stays valid while the count is positive. -/
def strongCount (others : Nat) (self : Shader) (t : Texture) : Nat :=
  others + (if self.texture = some t then 1 else 0)

/-- The `VideoMode` plain value struct (src/window/video_mode.rs, lines
44-51): three `uint` (pointer-sized) fields. -/
structure VideoMode where
  width : Nat
  height : Nat
  bits_per_pixel : Nat
deriving DecidableEq, Repr

/-- `VideoMode::new` (lines 57-63). -/
def VideoMode.new : VideoMode :=
  { width := 0, height := 0, bits_per_pixel := 0 }

/-- `VideoMode::new_init` (lines 68-76). -/
def VideoMode.new_init (width height bits_per_pixel : Nat) : VideoMode :=
  { width := width, height := height, bits_per_pixel := bits_per_pixel }

/-- `Wrappable<sfVideoMode>::wrap` for `VideoMode` (lines 152-158): each
`c_uint` field cast `as uint`, a lossless widening. -/
def VideoMode.wrap (mode : sfVideoMode) : VideoMode :=
  { width := mode.width,
    height := mode.height,
    bits_per_pixel := mode.bits_per_pixel }

/-- `Wrappable<sfVideoMode>::unwrap` for `VideoMode` (lines 160-166): each
`uint` field cast `as c_uint`, which truncates to 32 bits. -/
def VideoMode.unwrap (self : VideoMode) : sfVideoMode :=
  { width := self.width % 2 ^ 32,
    height := self.height % 2 ^ 32,
    bits_per_pixel := self.bits_per_pixel % 2 ^ 32 }

/-- `VideoMode::is_valid` (lines 85-95): builds the native triplet with
`as c_uint` casts, delegates, and decodes the sentinel boolean. -/
def VideoMode.is_valid (native : Native) (self : VideoMode) : Bool :=
  let i := native.sfVideoMode_isValid
    { width := self.width % 2 ^ 32,
      height := self.height % 2 ^ 32,
      bits_per_pixel := self.bits_per_pixel % 2 ^ 32 }
  match i with
  | SfBool.SFFALSE => false
  | SfBool.SFTRUE => true

/-- `VideoMode::get_desktop_mode` (lines 100-107). -/
def VideoMode.get_desktop_mode (native : Native) : VideoMode :=
  let mode := native.sfVideoMode_getDesktopMode
  { width := mode.width,
    height := mode.height,
    bits_per_pixel := mode.bits_per_pixel }

/-- `VideoMode::get_fullscreen_modes` (lines 120-147): read the native count;
when it is zero return `None`; otherwise view the returned array as a slice
of that length and wrap each entry in order. -/
def VideoMode.get_fullscreen_modes (native : Native) : Option (List VideoMode) :=
  let size := native.fullscreenModesCount
  if size = 0 then
    none
  else
    let tab_slice := (List.range size).map native.fullscreenModesTab
    some (tab_slice.map VideoMode.wrap)

/-- The blend-mode enumeration (src/graphics/blend_mode.rs, lines 31-40). -/
inductive BlendMode where
  | BlendAlpha
  | BlendAdd
  | BlendMultiply
  | BlendNone
deriving DecidableEq, Repr

/-- The integer discriminant assigned to each blend-mode value in the source
(`BlendAlpha = 0, BlendAdd = 1, BlendMultiply = 2, BlendNone = 3`). -/
def BlendMode.discriminant : BlendMode → Nat
  | BlendMode.BlendAlpha => 0
  | BlendMode.BlendAdd => 1
  | BlendMode.BlendMultiply => 2
  | BlendMode.BlendNone => 3

/-- A sample parameter name used by concrete witness runs. -/
def nameA : String := "alpha"

/-- A concrete native layer whose shader factory succeeds with handle 5 and
which reports two fullscreen modes; used to evaluate the binding on sample
runs. -/
def testNative : Native where
  sfShader_createFromFile := fun _ _ => some 5
  sfShader_createFromMemory := fun _ _ => some 7
  sfShader_isAvailable := SfBool.SFTRUE
  fullscreenModesCount := 2
  fullscreenModesTab := fun i =>
    { width := 800 + i, height := 600, bits_per_pixel := 32 }
  sfVideoMode_getDesktopMode := { width := 1920, height := 1080, bits_per_pixel := 32 }
  sfVideoMode_isValid := fun _ => SfBool.SFTRUE

/-- A concrete native layer whose shader factory returns a null handle and
which reports zero fullscreen modes. -/
def testNativeNull : Native where
  sfShader_createFromFile := fun _ _ => none
  sfShader_createFromMemory := fun _ _ => none
  sfShader_isAvailable := SfBool.SFFALSE
  fullscreenModesCount := 0
  fullscreenModesTab := fun _ => { width := 0, height := 0, bits_per_pixel := 0 }
  sfVideoMode_getDesktopMode := { width := 0, height := 0, bits_per_pixel := 0 }
  sfVideoMode_isValid := fun _ => SfBool.SFFALSE

/-- C1: for every pair of optional shader source inputs, `Shader::new_from_file`
and `Shader::new_from_memory` return `None` exactly when the native layer
returns a null handle, and otherwise return `Some` of a fully populated
wrapper — the owned handle set to the native handle and no other state
(retained texture empty); no partial or invalid wrapper is returned. -/
theorem Shader.factories_none_iff_null (native : Native) (v f : Option String) :
    ((Shader.new_from_file native v f).1 = none ↔
      native.sfShader_createFromFile (marshalOptStr v) (marshalOptStr f) = none) ∧
    (∀ h : Handle,
      native.sfShader_createFromFile (marshalOptStr v) (marshalOptStr f) = some h →
      (Shader.new_from_file native v f).1 =
        some { shader := h, texture := none }) ∧
    ((Shader.new_from_memory native v f).1 = none ↔
      native.sfShader_createFromFile (marshalOptStr v) (marshalOptStr f) = none) ∧
    (∀ h : Handle,
      native.sfShader_createFromFile (marshalOptStr v) (marshalOptStr f) = some h →
      (Shader.new_from_memory native v f).1 =
        some { shader := h, texture := none }) := by
  unfold Shader.new_from_file Shader.new_from_memory
  cases hr : native.sfShader_createFromFile (marshalOptStr v) (marshalOptStr f) <;>
    simp [hr]

/-- Witness for C1: on a native layer answering handle 5 the factory returns
the populated wrapper; on one answering null it returns absence. -/
theorem Shader.factories_none_iff_null_witness :
    (Shader.new_from_file testNative none none).1 =
      some { shader := 5, texture := none } ∧
    (Shader.new_from_memory testNativeNull none none).1 = none :=
  ⟨(Shader.factories_none_iff_null testNative none none).2.1 5 rfl,
   (Shader.factories_none_iff_null testNativeNull none none).2.2.1.mpr rfl⟩

/-- C2: the "create from memory" path calls the "create from file" native
entry point with the same marshaled arguments as `new_from_file` — never a
dedicated from-memory entry point — so the two factory operations are
behaviorally identical (equal results and equal emitted native calls). -/
theorem Shader.new_from_memory_calls_createFromFile (native : Native)
    (v f : Option String) :
    Shader.new_from_memory native v f = Shader.new_from_file native v f ∧
    (Shader.new_from_memory native v f).2 =
      [NativeCall.sfShader_createFromFile (marshalOptStr v) (marshalOptStr f)] ∧
    (Shader.new_from_file native v f).2 =
      [NativeCall.sfShader_createFromFile (marshalOptStr v) (marshalOptStr f)] := by
  unfold Shader.new_from_file Shader.new_from_memory
  cases hr : native.sfShader_createFromFile (marshalOptStr v) (marshalOptStr f) <;>
    simp [hr]

/-- C3: an absent optional textual input is marshaled to a null pointer and a
present one to a text pointer; constructing a shader with both inputs absent
is a defined path passing two null pointers to the native layer, and it
returns absence when the native layer returns a null handle. -/
theorem Shader.marshal_absent_null_present_text (s : String) (native : Native)
    (v f : Option String) :
    marshalOptStr none = none ∧
    marshalOptStr (some s) = some s ∧
    (Shader.new_from_file native v f).2 =
      [NativeCall.sfShader_createFromFile (marshalOptStr v) (marshalOptStr f)] ∧
    (Shader.new_from_file native none none).2 =
      [NativeCall.sfShader_createFromFile none none] ∧
    (native.sfShader_createFromFile none none = none →
      (Shader.new_from_file native none none).1 = none) := by
  refine ⟨rfl, rfl, ?_, ?_, ?_⟩
  · unfold Shader.new_from_file
    cases hr : native.sfShader_createFromFile (marshalOptStr v) (marshalOptStr f) <;>
      simp [hr]
  · unfold Shader.new_from_file
    cases hr : native.sfShader_createFromFile (marshalOptStr none) (marshalOptStr none) <;>
      simp [marshalOptStr] at hr ⊢ <;> simp [hr]
  · intro hnull
    unfold Shader.new_from_file
    simp [marshalOptStr] at hnull ⊢
    simp [hnull]

/-- Witness for C3: with both inputs absent and the null-returning native
layer, the factory passes two null pointers and reports absence. -/
theorem Shader.marshal_absent_null_present_text_witness :
    (Shader.new_from_file testNativeNull none none).2 =
      [NativeCall.sfShader_createFromFile none none] ∧
    (Shader.new_from_file testNativeNull none none).1 = none :=
  ⟨(Shader.marshal_absent_null_present_text nameA testNativeNull none none).2.2.2.1,
   (Shader.marshal_absent_null_present_text nameA testNativeNull none none).2.2.2.2 rfl⟩

/-- C8: the four blend-mode values carry integer discriminants 0, 1, 2, 3 in
the fixed order Alpha, Add, Multiply, None, and these four are the only
values of the type, with pairwise distinct discriminants. -/
theorem BlendMode.discriminants_fixed :
    BlendMode.discriminant BlendMode.BlendAlpha = 0 ∧
    BlendMode.discriminant BlendMode.BlendAdd = 1 ∧
    BlendMode.discriminant BlendMode.BlendMultiply = 2 ∧
    BlendMode.discriminant BlendMode.BlendNone = 3 ∧
    (∀ b : BlendMode,
      b = BlendMode.BlendAlpha ∨ b = BlendMode.BlendAdd ∨
      b = BlendMode.BlendMultiply ∨ b = BlendMode.BlendNone) ∧
    Function.Injective BlendMode.discriminant := by
  refine ⟨rfl, rfl, rfl, rfl, ?_, ?_⟩
  · intro b
    cases b <;> simp
  · intro a b hab
    cases a <;> cases b <;>
      first
        | rfl
        | simp [BlendMode.discriminant] at hab

/-- C4: `get_fullscreen_modes` returns `None` exactly when the native count
is 0 — never an empty sequence — and otherwise `Some` of a sequence of
exactly that many modes, in native order, each element's fields equal to the
corresponding native entry's fields. -/
theorem VideoMode.get_fullscreen_modes_spec (native : Native) :
    (VideoMode.get_fullscreen_modes native = none ↔
      native.fullscreenModesCount = 0) ∧
    VideoMode.get_fullscreen_modes native ≠ some [] ∧
    (∀ l : List VideoMode, VideoMode.get_fullscreen_modes native = some l →
      l.length = native.fullscreenModesCount ∧
      ∀ i : Nat, ∀ hi : i < l.length,
        (l.get ⟨i, hi⟩).width = (native.fullscreenModesTab i).width ∧
        (l.get ⟨i, hi⟩).height = (native.fullscreenModesTab i).height ∧
        (l.get ⟨i, hi⟩).bits_per_pixel =
          (native.fullscreenModesTab i).bits_per_pixel) := by
  unfold VideoMode.get_fullscreen_modes
  by_cases hc : native.fullscreenModesCount = 0
  · simp [hc]
  · refine ⟨by simp [hc], ?_, ?_⟩
    · intro hcontra
      simp [hc] at hcontra
    · intro l hl
      simp only [hc, if_false, Option.some.injEq] at hl
      subst hl
      refine ⟨by simp, ?_⟩
      intro i hi
      simp [List.get_eq_getElem, VideoMode.wrap]

/-- Witness for C4: the two-mode native layer yields exactly its two entries
in order; the zero-count native layer yields absence. -/
theorem VideoMode.get_fullscreen_modes_spec_witness :
    VideoMode.get_fullscreen_modes testNativeNull = none ∧
    ([⟨800, 600, 32⟩, ⟨801, 600, 32⟩] : List VideoMode).length =
      testNative.fullscreenModesCount ∧
    VideoMode.get_fullscreen_modes testNative =
      some [⟨800, 600, 32⟩, ⟨801, 600, 32⟩] :=
  ⟨(VideoMode.get_fullscreen_modes_spec testNativeNull).1.mpr rfl,
   ((VideoMode.get_fullscreen_modes_spec testNative).2.2
      [⟨800, 600, 32⟩, ⟨801, 600, 32⟩] rfl).1,
   rfl⟩

/-- Counterexample to C5: the claim quantifies over every display-mode
triplet, but unwrapping a `VideoMode` whose width is `2^32` truncates it
(`as c_uint`) to 0, so wrapping the result does not reproduce the value. -/
theorem VideoMode.roundtrip_counterexample :
    VideoMode.wrap (VideoMode.unwrap
        { width := 4294967296, height := 600, bits_per_pixel := 32 }) ≠
      { width := 4294967296, height := 600, bits_per_pixel := 32 } := by
  decide

/-- C5 (amended): wrapping a genuine native triplet (fields are 32-bit
values) then unwrapping reproduces it exactly, and unwrapping a `VideoMode`
then wrapping reproduces it exactly whenever its fields fit in 32 bits; the
`as c_uint` cast truncates larger fields modulo `2^32`. -/
theorem VideoMode.roundtrip_exact (m : sfVideoMode) (v : VideoMode)
    (hmw : m.width < 2 ^ 32) (hmh : m.height < 2 ^ 32)
    (hmb : m.bits_per_pixel < 2 ^ 32)
    (hvw : v.width < 2 ^ 32) (hvh : v.height < 2 ^ 32)
    (hvb : v.bits_per_pixel < 2 ^ 32) :
    VideoMode.unwrap (VideoMode.wrap m) = m ∧
    VideoMode.wrap (VideoMode.unwrap v) = v := by
  obtain ⟨mw, mh, mb⟩ := m
  obtain ⟨vw, vh, vb⟩ := v
  refine ⟨?_, ?_⟩
  · simp only [VideoMode.wrap, VideoMode.unwrap, sfVideoMode.mk.injEq]
    exact ⟨Nat.mod_eq_of_lt hmw, Nat.mod_eq_of_lt hmh, Nat.mod_eq_of_lt hmb⟩
  · simp only [VideoMode.wrap, VideoMode.unwrap, VideoMode.mk.injEq]
    exact ⟨Nat.mod_eq_of_lt hvw, Nat.mod_eq_of_lt hvh, Nat.mod_eq_of_lt hvb⟩

/-- Witness for the amended C5: a concrete triplet within 32-bit range
round-trips exactly in both directions. -/
theorem VideoMode.roundtrip_exact_witness :
    VideoMode.unwrap (VideoMode.wrap ⟨1920, 1080, 32⟩) = ⟨1920, 1080, 32⟩ ∧
    VideoMode.wrap (VideoMode.unwrap ⟨1920, 1080, 32⟩) = ⟨1920, 1080, 32⟩ :=
  VideoMode.roundtrip_exact ⟨1920, 1080, 32⟩ ⟨1920, 1080, 32⟩
    (by decide) (by decide) (by decide) (by decide) (by decide) (by decide)

/-- C7: `set_current_texture_parameter` retains no texture reference (the
wrapper is returned unchanged), and every shader method other than
`set_texture_parameter` leaves both the retained-texture field and the owned
handle unchanged. -/
theorem Shader.non_texture_ops_preserve_state (self : Shader) (name : String)
    (op : ShaderOp) (hop : ∀ n t, op ≠ ShaderOp.set_texture n t) :
    (Shader.set_current_texture_parameter self name).1 = self ∧
    (Shader.step self op).1.texture = self.texture ∧
    (Shader.step self op).1.shader = self.shader := by
  refine ⟨rfl, ?_⟩
  cases op <;>
    first
      | exact ⟨rfl, rfl⟩
      | exact absurd rfl (hop _ _)

/-- Witness for C7: a non-texture method invocation (a float set) on a
concrete wrapper changes neither field. -/
theorem Shader.non_texture_ops_preserve_state_witness :
    (Shader.set_current_texture_parameter ⟨1, some ⟨9⟩⟩ nameA).1 =
      (⟨1, some ⟨9⟩⟩ : Shader) ∧
    (Shader.step ⟨1, some ⟨9⟩⟩ (ShaderOp.set_float nameA ⟨0⟩)).1.texture =
      (⟨1, some ⟨9⟩⟩ : Shader).texture ∧
    (Shader.step ⟨1, some ⟨9⟩⟩ (ShaderOp.set_float nameA ⟨0⟩)).1.shader =
      (⟨1, some ⟨9⟩⟩ : Shader).shader :=
  Shader.non_texture_ops_preserve_state ⟨1, some ⟨9⟩⟩ nameA
    (ShaderOp.set_float nameA ⟨0⟩) (fun n t => by simp)

/-- C9: `is_available` is a static query (its embedding takes no shader
instance and no binding-layer state, only the native layer) whose result is
determined solely by the native capability sentinel — so any two calls
against a fixed native layer return the same boolean — and it decodes
`SFTRUE` to `true` and `SFFALSE` to `false`. -/
theorem Shader.is_available_pure (n1 n2 : Native)
    (h : n1.sfShader_isAvailable = n2.sfShader_isAvailable) :
    Shader.is_available n1 = Shader.is_available n2 ∧
    (Shader.is_available n1 = true ↔ n1.sfShader_isAvailable = SfBool.SFTRUE) ∧
    (Shader.is_available n1 = false ↔ n1.sfShader_isAvailable = SfBool.SFFALSE) := by
  refine ⟨?_, ?_, ?_⟩
  · unfold Shader.is_available
    rw [h]
  · cases hb : n1.sfShader_isAvailable <;> simp [Shader.is_available, hb]
  · cases hb : n1.sfShader_isAvailable <;> simp [Shader.is_available, hb]

/-- Witness for C9: two calls against the same concrete native layer agree,
and the sentinel decodes as stated. -/
theorem Shader.is_available_pure_witness :
    Shader.is_available testNative = Shader.is_available testNative ∧
    Shader.is_available testNative = true :=
  ⟨(Shader.is_available_pure testNative testNative rfl).1,
   (Shader.is_available_pure testNative testNative rfl).2.1.mpr rfl⟩

/-- Unfolding lemma: the specification-side retained texture over a cons. -/
theorem retainedTextureSpec_cons (init : Option Texture) (op : ShaderOp)
    (ops : List ShaderOp) :
    retainedTextureSpec init (op :: ops) =
      retainedTextureSpec (retainedTextureStep init op) ops := rfl

/-- A sequence containing no `set_texture` invocation leaves the
specification-side retained texture at its initial value. -/
theorem retainedTextureSpec_no_set (init : Option Texture) (ops : List ShaderOp)
    (hops : ∀ op ∈ ops, ∀ n u, op ≠ ShaderOp.set_texture n u) :
    retainedTextureSpec init ops = init := by
  induction ops generalizing init with
  | nil => rfl
  | cons op ops ih =>
      rw [retainedTextureSpec_cons]
      have hstep : retainedTextureStep init op = init := by
        cases op <;>
          first
            | rfl
            | exact absurd rfl (hops _ (List.mem_cons_self _ _) _ _)
      rw [hstep]
      exact ih init fun o ho n u => hops o (List.mem_cons_of_mem _ ho) n u

/-- The retained-texture field after running any method sequence equals the
specification-side fold: the argument of the last `set_texture`, else the
initial contents. -/
theorem Shader.runOps_texture (s : Shader) (ops : List ShaderOp) :
    (Shader.runOps s ops).texture = retainedTextureSpec s.texture ops := by
  induction ops generalizing s with
  | nil => rfl
  | cons op ops ih =>
      rw [Shader.runOps, retainedTextureSpec_cons, ih]
      congr 1
      cases op <;> rfl

/-- C6: after `set_texture_parameter(name, t)` the shader's retained shared
reference is `t`; it stays retained across any further method invocations
that do not set another texture, and with every reference outside the shader
dropped the strong count of the `Rc` cell stays positive, so the texture is
not deallocated while the shader holds it. -/
theorem Shader.set_texture_retains (self : Shader) (name : String) (t : Texture)
    (ops : List ShaderOp)
    (hops : ∀ op ∈ ops, ∀ n u, op ≠ ShaderOp.set_texture n u) :
    (Shader.set_texture_parameter self name t).1.texture = some t ∧
    (Shader.runOps (Shader.set_texture_parameter self name t).1 ops).texture =
      some t ∧
    0 < strongCount 0
      (Shader.runOps (Shader.set_texture_parameter self name t).1 ops) t := by
  have h1 : (Shader.set_texture_parameter self name t).1.texture = some t := rfl
  have h2 := Shader.runOps_texture (Shader.set_texture_parameter self name t).1 ops
  rw [h1, retainedTextureSpec_no_set (some t) ops hops] at h2
  exact ⟨h1, h2, by simp [strongCount, h2]⟩

/-- Witness for C6: on a concrete wrapper, setting texture 9 then invoking a
float set leaves the reference retained and the strong count positive with
zero outside references. -/
theorem Shader.set_texture_retains_witness :
    (Shader.set_texture_parameter ⟨1, none⟩ nameA ⟨9⟩).1.texture = some ⟨9⟩ ∧
    (Shader.runOps (Shader.set_texture_parameter ⟨1, none⟩ nameA ⟨9⟩).1
        [ShaderOp.set_float nameA ⟨0⟩]).texture = some ⟨9⟩ ∧
    0 < strongCount 0
      (Shader.runOps (Shader.set_texture_parameter ⟨1, none⟩ nameA ⟨9⟩).1
        [ShaderOp.set_float nameA ⟨0⟩]) ⟨9⟩ :=
  Shader.set_texture_retains ⟨1, none⟩ nameA ⟨9⟩ [ShaderOp.set_float nameA ⟨0⟩]
    (fun op hop n u => by
      simp only [List.mem_singleton] at hop
      subst hop
      simp)

/-- C10: every shader produced by `wrap`, `new_from_file` or `new_from_memory`
starts with an empty retained-texture field, and after any method sequence
from such a state the field holds `some t` exactly when a `set_texture`
invocation with `t` occurred and no later one replaced it (the fold
`retainedTextureSpec`). -/
theorem Shader.texture_field_invariant (native : Native) (v f : Option String)
    (h : Handle) (s : Shader) (ops : List ShaderOp) :
    (Shader.wrap h).texture = none ∧
    ((Shader.new_from_file native v f).1 = some s → s.texture = none) ∧
    ((Shader.new_from_memory native v f).1 = some s → s.texture = none) ∧
    (Shader.runOps (Shader.wrap h) ops).texture = retainedTextureSpec none ops := by
  refine ⟨rfl, ?_, ?_, ?_⟩
  · intro hs
    unfold Shader.new_from_file at hs
    cases hr : native.sfShader_createFromFile (marshalOptStr v) (marshalOptStr f) <;>
      simp [hr] at hs
    rw [← hs]
  · intro hs
    unfold Shader.new_from_memory at hs
    cases hr : native.sfShader_createFromFile (marshalOptStr v) (marshalOptStr f) <;>
      simp [hr] at hs
    rw [← hs]
  · exact Shader.runOps_texture (Shader.wrap h) ops

/-- Witness for C10: a concrete factory-built wrapper starts with no retained
texture, and a concrete run ends at the last `set_texture` argument. -/
theorem Shader.texture_field_invariant_witness :
    ((⟨5, none⟩ : Shader)).texture = none ∧
    (Shader.runOps (Shader.wrap 2)
        [ShaderOp.set_texture nameA ⟨9⟩, ShaderOp.bind]).texture =
      retainedTextureSpec none [ShaderOp.set_texture nameA ⟨9⟩, ShaderOp.bind] :=
  ⟨(Shader.texture_field_invariant testNative none none 2 ⟨5, none⟩ []).2.1 rfl,
   (Shader.texture_field_invariant testNative none none 2 ⟨5, none⟩
      [ShaderOp.set_texture nameA ⟨9⟩, ShaderOp.bind]).2.2.2⟩

end RustSfml
